import Mathlib

/-!
# Verification of the e-commerce backend's data-access and route layers

A shallow embedding of the repository's `app/models.py`, `app/schemas.py`,
`app/crud.py` and `app/main.py`.  Tables are lists of rows kept in insertion
order; SQL `Float` columns are modelled as rationals; server-assigned
timestamps come from a session clock carried on the database state, and
server-assigned primary keys from explicit sequences.  Fallible operations
return `Except` values mirroring the `{"error": ...}` dictionaries of
`crud.create_order`.
-/

namespace App

/-- `models.UserRole`. -/
inductive UserRole where
  | user
  | admin
deriving DecidableEq

/-- `models.OrderStatus`. -/
inductive OrderStatus where
  | pending
  | processing
  | shipped
  | delivered
  | cancelled
deriving DecidableEq

/-- A row of the `users` table (`models.User`). -/
structure User where
  user_id : Nat
  email : String
  password_hash : String
  first_name : String
  last_name : String
  phone_number : Option String
  role : UserRole
  created_at : Nat
  updated_at : Option Nat
deriving DecidableEq

/-- A row of the `product` table (`models.Product`). -/
structure Product where
  product_id : Nat
  category_name : String
  subcategory_name : Option String
  name : String
  description : String
  brand : Option String
  price : Rat
  discount_price : Option Rat
  is_active : Bool
  created_at : Nat
  updated_at : Option Nat
deriving DecidableEq

/-- A row of the `address` table (`models.Address`). -/
structure Address where
  address_id : Nat
  user_id : Nat
  address_line1 : String
  address_line2 : Option String
  city : String
  state : String
  country : String
  postal_code : String
  is_default_shipping : Bool
  is_default_billing : Bool
  created_at : Nat
  updated_at : Option Nat
deriving DecidableEq

/-- A row of the `order_detail` table (`models.OrderDetail`).  The row lives
nested inside its owning `Order` (the `details` relationship with delete
cascade); its own server-assigned surrogate key and timestamp are omitted. -/
structure OrderDetail where
  product_id : Nat
  quantity : Int
  price_at_purchase : Rat
deriving DecidableEq

/-- A row of the `order` table (`models.Order`) together with its owned
`details` line items. -/
structure Order where
  order_id : Nat
  user_id : Nat
  shipping_address_id : Nat
  billing_address_id : Nat
  order_date : Nat
  total_amount : Rat
  status : OrderStatus
  details : List OrderDetail
deriving DecidableEq

/-- The relational database state: one list per table, in insertion order,
plus the primary-key sequences and the clock used for server-assigned
timestamps. -/
structure DB where
  users : List User
  products : List Product
  addresses : List Address
  orders : List Order
  next_user_id : Nat
  next_order_id : Nat
  clock : Nat
deriving DecidableEq

/-- `schemas.UserCreate`. -/
structure UserCreate where
  email : String
  first_name : String
  last_name : String
  phone_number : Option String
  password : String
deriving DecidableEq

/-- `schemas.OrderDetailCreate`: one requested line item. -/
structure OrderDetailCreate where
  product_id : Nat
  quantity : Int
deriving DecidableEq

/-- `schemas.OrderCreate`. -/
structure OrderCreate where
  shipping_address_id : Nat
  billing_address_id : Nat
  items : List OrderDetailCreate
deriving DecidableEq

/-- `schemas.User`, the outbound user representation: it re-exposes the base
fields and adds id, role and timestamps — there is no password(-hash) field. -/
structure UserOut where
  email : String
  first_name : String
  last_name : String
  phone_number : Option String
  user_id : Nat
  role : UserRole
  created_at : Nat
  updated_at : Option Nat
deriving DecidableEq

/-- Serialization of a stored user through `response_model=schemas.User`
(field-for-field projection, `from_attributes`). -/
def user_to_schema (u : User) : UserOut :=
  { email := u.email
    first_name := u.first_name
    last_name := u.last_name
    phone_number := u.phone_number
    user_id := u.user_id
    role := u.role
    created_at := u.created_at
    updated_at := u.updated_at }

/-- Python string slicing `s[:n]`: the first `n` characters. -/
def sliceTo (s : String) (n : Nat) : String := String.mk (s.data.take n)

/-- Modelled from the spec: the Authorization Module (`auth.utils`) is not in
the repository's source; §4.6 specifies `hashPassword` as a deterministic
one-way hash accepting inputs of up to 72 characters.  Modelled as an
injective tagged encoding. -/
def hash_password (plain : String) : String := "$hash$" ++ plain

/-- Modelled from the spec: `verifyPassword(plainText, storedHash)` of §4.6,
modelled as verification by recomputation against the stored hash. -/
def verify_password (plain stored : String) : Bool := hash_password plain == stored

/-- `crud.get_user_by_email`: first row of `users` matching the email. -/
def get_user_by_email (db : DB) (email : String) : Option User :=
  db.users.find? (fun u => u.email == email)

/-- `crud.get_product`: first row of `product` with the given primary key. -/
def get_product (db : DB) (product_id : Nat) : Option Product :=
  db.products.find? (fun p => p.product_id == product_id)

/-- `crud.get_address` (the same query `crud.create_order` issues inline for
the shipping and billing addresses). -/
def get_address (db : DB) (address_id : Nat) : Option Address :=
  db.addresses.find? (fun a => a.address_id == address_id)

/-- `crud.create_user`: truncate the password to 72 characters, hash it, and
persist a `users` row with the defaulted `user` role. -/
def create_user (db : DB) (user : UserCreate) : DB × User :=
  let safe_password_string := sliceTo user.password 72
  let hashed_password := hash_password safe_password_string
  let db_user : User :=
    { user_id := db.next_user_id
      email := user.email
      password_hash := hashed_password
      first_name := user.first_name
      last_name := user.last_name
      phone_number := user.phone_number
      role := UserRole.user
      created_at := db.clock
      updated_at := none }
  ({ db with
      users := db.users ++ [db_user]
      next_user_id := db.next_user_id + 1 },
   db_user)

/-- The structured error values `crud.create_order` returns (the
`{"error": msg}` dictionaries), one constructor per distinct message. -/
inductive CrudError where
  | shippingAddressNotFound (address_id : Nat)
  | billingAddressNotFound (address_id : Nat)
  | productNotFound (product_id : Nat)
  | invalidQuantity (product_id : Nat)
deriving DecidableEq

/-- The exact message strings of `crud.create_order`'s error dictionaries. -/
def CrudError.message : CrudError → String
  | .shippingAddressNotFound i => s!"Shipping Address ID {i} not found."
  | .billingAddressNotFound i => s!"Billing Address ID {i} not found."
  | .productNotFound i => s!"Product ID {i} not found."
  | .invalidQuantity i => s!"Quantity for Product ID {i} must be positive."

/-- The spec's error taxonomy (§7) restricted to the kinds `create_order`
produces. -/
inductive ErrorKind where
  | notFound
  | invalidInput
deriving DecidableEq

/-- Classification of `create_order`'s errors by the spec's taxonomy:
missing references are NotFound, the non-positive quantity rejection is
InvalidInput. -/
def CrudError.kind : CrudError → ErrorKind
  | .shippingAddressNotFound _ => .notFound
  | .billingAddressNotFound _ => .notFound
  | .productNotFound _ => .notFound
  | .invalidQuantity _ => .invalidInput

/-- The `for item in order.items` loop of `crud.create_order`, carrying the
`db_details` accumulator and the running `total_amount`.  Each iteration
resolves the product, rejects a missing product and then a non-positive
quantity, computes the line's unit price (discount price if present, else
price), and appends the line-item row snapshotting that price. -/
def order_items_loop (db : DB) (items : List OrderDetailCreate)
    (db_details : List OrderDetail) (total_amount : Rat) :
    Except CrudError (List OrderDetail × Rat) :=
  match items with
  | [] => .ok (db_details, total_amount)
  | item :: rest =>
    match get_product db item.product_id with
    | none => .error (.productNotFound item.product_id)
    | some db_product =>
      if item.quantity ≤ 0 then
        .error (.invalidQuantity item.product_id)
      else
        let item_price :=
          match db_product.discount_price with
          | some d => d
          | none => db_product.price
        let db_detail : OrderDetail :=
          { product_id := item.product_id
            quantity := item.quantity
            price_at_purchase := item_price }
        order_items_loop db rest (db_details ++ [db_detail])
          (total_amount + item_price * (item.quantity : Rat))

/-- `crud.create_order`: resolve the shipping then the billing address
(no ownership check against `user_id`), run the line-item loop, and on
success persist — in one commit — the order with the accumulated total,
the defaulted `pending` status and its owned details.  Every failure
branch returns before anything is added to the session, leaving the
database unchanged. -/
def create_order (db : DB) (order : OrderCreate) (user_id : Nat) :
    DB × Except CrudError Order :=
  match get_address db order.shipping_address_id with
  | none => (db, .error (.shippingAddressNotFound order.shipping_address_id))
  | some _ =>
    match get_address db order.billing_address_id with
    | none => (db, .error (.billingAddressNotFound order.billing_address_id))
    | some _ =>
      match order_items_loop db order.items [] 0 with
      | .error e => (db, .error e)
      | .ok (db_details, total_amount) =>
        let db_order : Order :=
          { order_id := db.next_order_id
            user_id := user_id
            shipping_address_id := order.shipping_address_id
            billing_address_id := order.billing_address_id
            order_date := db.clock
            total_amount := total_amount
            status := OrderStatus.pending
            details := db_details }
        ({ db with
            orders := db.orders ++ [db_order]
            next_order_id := db.next_order_id + 1 },
         .ok db_order)

/-- `crud.get_order`. -/
def get_order (db : DB) (order_id : Nat) : Option Order :=
  db.orders.find? (fun o => o.order_id == order_id)

/-- The `POST /signup/` route: reject an already-registered email with
HTTP 400 (`DuplicateEntity`), otherwise create the user and respond 201
with the serialized record. -/
def signup (db : DB) (user : UserCreate) : DB × Except (Nat × String) UserOut :=
  match get_user_by_email db user.email with
  | some _ => (db, .error (400, "Email already registered"))
  | none =>
    let (db2, new_user) := create_user db user
    (db2, .ok (user_to_schema new_user))

/-- HTTP status of a `signup` outcome (the route declares
`status_code=201`; the duplicate branch raises with its own code). -/
def signup_status : Except (Nat × String) UserOut → Nat
  | .ok _ => 201
  | .error (code, _) => code

/-- The `POST /login` route's credential check: resolve the user by email
and verify the password truncated to its first 72 characters against the
stored hash.  `true` means a token is issued, `false` the 401 rejection. -/
def login_check (db : DB) (username password : String) : Bool :=
  match get_user_by_email db username with
  | none => false
  | some user =>
    let login_password := sliceTo password 72
    verify_password login_password user.password_hash

/-- HTTP status of the `POST /checkout` route: any error dictionary from
`crud.create_order` is re-raised as 404, success responds 201. -/
def checkout_status : Except CrudError Order → Nat
  | .ok _ => 201
  | .error _ => 404

/-- All suffixes of a list, the list itself first, ending with `[]`. -/
def suffixesOf : List Char → List (List Char)
  | [] => [[]]
  | c :: rest => (c :: rest) :: suffixesOf rest

/-- Consume one subject character equal to `c`, then continue with `k`. -/
def matchLit (c : Char) (k : List Char → Bool) : List Char → Bool
  | [] => false
  | c2 :: s2 => c == c2 && k s2

/-- Consume one arbitrary subject character (the `_` wildcard), then
continue with `k`. -/
def matchOne (k : List Char → Bool) : List Char → Bool
  | [] => false
  | _ :: s2 => k s2

/-- SQL `LIKE` pattern matching (PostgreSQL): `%` matches any sequence,
`_` any single character, and a backslash escapes the following
character (a pattern ending in a lone backslash matches nothing). -/
def likeMatch : List Char → List Char → Bool
  | [], s => s.isEmpty
  | p :: ps, s =>
    if p = '%' then
      (suffixesOf s).any (fun t => likeMatch ps t)
    else if p = '_' then
      matchOne (likeMatch ps) s
    else if p = '\\' then
      match ps with
      | [] => false
      | c :: ps2 => matchLit c (likeMatch ps2) s
    else
      matchLit p (likeMatch ps) s

/-- Characterwise `lower()`; PostgreSQL's `ILIKE` compares both sides
case-insensitively (ASCII letters, via `Char.toLower`). -/
def lowerList (l : List Char) : List Char := l.map Char.toLower

/-- SQLAlchemy's `column.ilike(pattern)`: case-insensitive `LIKE`. -/
def ilike (s pat : String) : Bool :=
  likeMatch (lowerList pat.data) (lowerList s.data)

/-- Python truthiness of an optional string parameter (`if category:`):
`None` and the empty string are both falsy. -/
def pyTruthy : Option String → Bool
  | none => false
  | some s => !(s == "")

/-- `crud.get_filtered_products`: narrow the product listing by an
`ilike "%...%"` pattern on the category and then the subcategory whenever
the corresponding parameter is Python-truthy, then apply OFFSET `skip`
and LIMIT `limit`.  A product whose `subcategory_name` is NULL never
satisfies an applied subcategory filter (`NULL ILIKE p` is not true). -/
def get_filtered_products (db : DB) (category : Option String)
    (subcategory : Option String) (skip : Nat) (limit : Nat) : List Product :=
  let q0 := db.products
  let q1 :=
    if pyTruthy category then
      q0.filter (fun p => ilike p.category_name ("%" ++ category.getD "" ++ "%"))
    else q0
  let q2 :=
    if pyTruthy subcategory then
      q1.filter (fun p =>
        match p.subcategory_name with
        | some nm => ilike nm ("%" ++ subcategory.getD "" ++ "%")
        | none => false)
    else q1
  (q2.drop skip).take limit

/-! ## Specification-side definitions

Statements of the claims are phrased against the following definitions,
taken from the specification's wording, and compared with the embedded
code above. -/

/-- The spec's *effective unit price*: the discount price if set, otherwise
the standard price. -/
def effective_price (p : Product) : Rat :=
  p.discount_price.getD p.price

/-- The line-item record the spec says checkout persists for a requested
item: product id, quantity, and the effective unit price charged at the
moment of purchase (price `0` as a placeholder for an unresolvable
product, a case the claims exclude). -/
def expected_detail (db : DB) (it : OrderDetailCreate) : OrderDetail :=
  match get_product db it.product_id with
  | some p =>
    { product_id := it.product_id
      quantity := it.quantity
      price_at_purchase := effective_price p }
  | none =>
    { product_id := it.product_id
      quantity := it.quantity
      price_at_purchase := 0 }

/-- The spec's order total: the sum over all line items of the effective
unit price times the quantity. -/
def expected_total (db : DB) (items : List OrderDetailCreate) : Rat :=
  (items.map (fun it =>
    match get_product db it.product_id with
    | some p => effective_price p * (it.quantity : Rat)
    | none => 0)).sum

/-- The order §4.5 says a successful checkout persists: owning user,
the two address ids, the accumulated total, default `pending` status,
and the line items as owned details. -/
def expected_order (db : DB) (order : OrderCreate) (user_id : Nat) : Order :=
  { order_id := db.next_order_id
    user_id := user_id
    shipping_address_id := order.shipping_address_id
    billing_address_id := order.billing_address_id
    order_date := db.clock
    total_amount := expected_total db order.items
    status := OrderStatus.pending
    details := order.items.map (expected_detail db) }

/-- Case-insensitive substring containment, the matching C8 describes:
some suffix of the lowercased name starts with the lowercased filter. -/
def containsCI (name filt : String) : Bool :=
  (suffixesOf (lowerList name.data)).any
    (fun t => (lowerList filt.data).isPrefixOf t)

/-- The product predicate of claim C8: when a category (resp. subcategory)
filter is provided, the product's category (resp. subcategory) name must
contain it as a case-insensitive substring; a product without a
subcategory name matches no subcategory filter. -/
def specMatches (category subcategory : Option String) (p : Product) : Bool :=
  (match category with
   | none => true
   | some c => containsCI p.category_name c) &&
  (match subcategory with
   | none => true
   | some c =>
     match p.subcategory_name with
     | some nm => containsCI nm c
     | none => false)

/-- A character that is not a SQL `LIKE` metacharacter (`%`, `_`) nor the
escape character `\`. -/
def litChar (c : Char) : Bool :=
  !(c == '%' || c == '_' || c == '\\')

/-- A filter string free of the SQL `LIKE` metacharacters `%`, `_` and the
escape character `\`. -/
def litFilter (f : String) : Bool :=
  f.data.all litChar

/-! ## Concrete database states and requests used to instantiate claims -/

-- Decidable equality of operation results.
deriving instance DecidableEq for Except

/-- Product A of the spec's §8 example 5: priced 100.0, discount 80.0. -/
def productA : Product :=
  { product_id := 1, category_name := "Electronics", subcategory_name := some "Phones"
    name := "A", description := "product A", brand := none, price := 100
    discount_price := some 80, is_active := true, created_at := 0, updated_at := none }

/-- Product B of the spec's §8 example 5: priced 50.0, no discount. -/
def productB : Product :=
  { product_id := 2, category_name := "Furniture", subcategory_name := none
    name := "B", description := "product B", brand := none, price := 50
    discount_price := none, is_active := true, created_at := 0, updated_at := none }

/-- An address row owned by user 7. -/
def address1 : Address :=
  { address_id := 1, user_id := 7, address_line1 := "1 Main St", address_line2 := none
    city := "Pune", state := "MH", country := "India", postal_code := "411001"
    is_default_shipping := false, is_default_billing := false
    created_at := 0, updated_at := none }

/-- A catalog with products A and B and one address. -/
def db1 : DB :=
  { users := [], products := [productA, productB], addresses := [address1]
    orders := [], next_user_id := 1, next_order_id := 1, clock := 3 }

/-- The checkout request of the spec's §8 example 5: A × 2, B × 3. -/
def order1 : OrderCreate :=
  { shipping_address_id := 1, billing_address_id := 1
    items := [ { product_id := 1, quantity := 2 }, { product_id := 2, quantity := 3 } ] }

/-- A request whose first line item has quantity 0 on an existing product
and whose second names a product that does not exist. -/
def order2 : OrderCreate :=
  { shipping_address_id := 1, billing_address_id := 1
    items := [ { product_id := 2, quantity := 0 }, { product_id := 99, quantity := 1 } ] }

/-- A request with a missing product among positive-quantity items. -/
def order3 : OrderCreate :=
  { shipping_address_id := 1, billing_address_id := 1
    items := [ { product_id := 99, quantity := 1 } ] }

/-- A request with one zero-quantity line item on an existing product. -/
def order4 : OrderCreate :=
  { shipping_address_id := 1, billing_address_id := 1
    items := [ { product_id := 2, quantity := 0 } ] }

/-- An empty-cart request. -/
def order5 : OrderCreate :=
  { shipping_address_id := 1, billing_address_id := 1, items := [] }

/-- The catalog without any address rows. -/
def db2 : DB :=
  { users := [], products := [productA, productB], addresses := []
    orders := [], next_user_id := 1, next_order_id := 1, clock := 3 }

/-- The empty database. -/
def db0 : DB :=
  { users := [], products := [], addresses := [], orders := []
    next_user_id := 1, next_order_id := 1, clock := 0 }

/-- A signup request. -/
def userInputA : UserCreate :=
  { email := "a@example.com", first_name := "Asha", last_name := "K"
    phone_number := none, password := "first password" }

/-- A second signup request for the same email. -/
def userInputB : UserCreate :=
  { email := "a@example.com", first_name := "Benoit", last_name := "L"
    phone_number := some "123", password := "other password" }

/-- An 80-character password. -/
def longPassword : String := String.mk (List.replicate 80 'a')

/-- A string agreeing with `longPassword` on the first 72 characters and
differing afterwards. -/
def longPassword2 : String := String.mk (List.replicate 72 'a' ++ List.replicate 8 'b')

/-- A signup request with the 80-character password. -/
def userInputLong : UserCreate :=
  { email := "long@example.com", first_name := "Lo", last_name := "Ng"
    phone_number := none, password := longPassword }

/-- A product whose category name contains no `LIKE` metacharacter. -/
def productX : Product :=
  { product_id := 9, category_name := "X", subcategory_name := none
    name := "X", description := "x", brand := none, price := 1
    discount_price := none, is_active := true, created_at := 0, updated_at := none }

/-- A one-product catalog for the wildcard counterexample. -/
def db3 : DB :=
  { users := [], products := [productX], addresses := [], orders := []
    next_user_id := 1, next_order_id := 1, clock := 0 }

/-! ## Helper lemmas about the order-placement loop -/

/-- When every requested product resolves and every quantity is positive,
the loop returns the snapshotted line items and accumulates the effective
prices into the total. -/
theorem order_items_loop_ok (db : DB) (items : List OrderDetailCreate)
    (hp : ∀ it ∈ items, (get_product db it.product_id).isSome)
    (hq : ∀ it ∈ items, 0 < it.quantity)
    (acc : List OrderDetail) (tot : Rat) :
    order_items_loop db items acc tot
      = .ok (acc ++ items.map (expected_detail db), tot + expected_total db items) := by
  induction items generalizing acc tot with
  | nil => simp [order_items_loop, expected_total]
  | cons it rest ih =>
    obtain ⟨p, hp1⟩ := Option.isSome_iff_exists.mp (hp it (by simp))
    have h2 : ¬ it.quantity ≤ 0 := by
      have := hq it (by simp)
      omega
    rw [order_items_loop, hp1]
    simp only [h2, if_false]
    rw [ih (fun x hx => hp x (by simp [hx])) (fun x hx => hq x (by simp [hx]))]
    simp only [expected_total, List.map_cons, List.sum_cons, hp1, expected_detail,
      effective_price]
    cases p.discount_price with
    | none => simp [add_assoc]
    | some d => simp [add_assoc]

/-- A successful `create_order` persists exactly the order the spec
describes and returns it. -/
theorem create_order_ok (db : DB) (order : OrderCreate) (user_id : Nat)
    (hs : (get_address db order.shipping_address_id).isSome)
    (hb : (get_address db order.billing_address_id).isSome)
    (hp : ∀ it ∈ order.items, (get_product db it.product_id).isSome)
    (hq : ∀ it ∈ order.items, 0 < it.quantity) :
    create_order db order user_id
      = ({ db with
            orders := db.orders ++ [expected_order db order user_id]
            next_order_id := db.next_order_id + 1 },
         .ok (expected_order db order user_id)) := by
  obtain ⟨sa, hsa⟩ := Option.isSome_iff_exists.mp hs
  obtain ⟨ba, hba⟩ := Option.isSome_iff_exists.mp hb
  rw [create_order, hsa, hba, order_items_loop_ok db order.items hp hq [] 0]
  simp [expected_order]

/-- A missing product among the requested items makes the loop fail. -/
theorem order_items_loop_error_of_missing_product (db : DB)
    (items : List OrderDetailCreate) (acc : List OrderDetail) (tot : Rat)
    (h : ∃ it ∈ items, get_product db it.product_id = none) :
    ∃ e, order_items_loop db items acc tot = .error e := by
  induction items generalizing acc tot with
  | nil => simp at h
  | cons it rest ih =>
    cases hp : get_product db it.product_id with
    | none =>
      exact ⟨.productNotFound it.product_id, by rw [order_items_loop, hp]⟩
    | some p =>
      by_cases hq : it.quantity ≤ 0
      · refine ⟨.invalidQuantity it.product_id, ?_⟩
        rw [order_items_loop, hp]
        simp [hq]
      · obtain ⟨it2, hmem, hnone⟩ := h
        have hmem2 : it2 ∈ rest := by
          rcases List.mem_cons.mp hmem with h1 | h1
          · subst h1
            rw [hp] at hnone
            cases hnone
          · exact h1
        obtain ⟨e, he⟩ := ih _ _ ⟨it2, hmem2, hnone⟩
        refine ⟨e, ?_⟩
        rw [order_items_loop, hp]
        simpa [hq] using he

/-- With all quantities positive, a missing product surfaces precisely as
a product-not-found error. -/
theorem order_items_loop_notFound_of_all_pos (db : DB)
    (items : List OrderDetailCreate) (acc : List OrderDetail) (tot : Rat)
    (hqs : ∀ it ∈ items, 0 < it.quantity)
    (h : ∃ it ∈ items, get_product db it.product_id = none) :
    ∃ pid, order_items_loop db items acc tot = .error (.productNotFound pid) := by
  induction items generalizing acc tot with
  | nil => simp at h
  | cons it rest ih =>
    cases hp : get_product db it.product_id with
    | none =>
      exact ⟨it.product_id, by rw [order_items_loop, hp]⟩
    | some p =>
      have hq : ¬ it.quantity ≤ 0 := by
        have := hqs it (by simp)
        omega
      obtain ⟨it2, hmem, hnone⟩ := h
      have hmem2 : it2 ∈ rest := by
        rcases List.mem_cons.mp hmem with h1 | h1
        · subst h1
          rw [hp] at hnone
          cases hnone
        · exact h1
      obtain ⟨pid, he⟩ := ih _ _ (fun x hx => hqs x (by simp [hx])) ⟨it2, hmem2, hnone⟩
      refine ⟨pid, ?_⟩
      rw [order_items_loop, hp]
      simpa [hq] using he

/-- With every product resolving, a non-positive quantity surfaces
precisely as an invalid-quantity error. -/
theorem order_items_loop_invalid_of_all_found (db : DB)
    (items : List OrderDetailCreate) (acc : List OrderDetail) (tot : Rat)
    (hps : ∀ it ∈ items, (get_product db it.product_id).isSome)
    (h : ∃ it ∈ items, it.quantity ≤ 0) :
    ∃ pid, order_items_loop db items acc tot = .error (.invalidQuantity pid) := by
  induction items generalizing acc tot with
  | nil => simp at h
  | cons it rest ih =>
    obtain ⟨p, hp⟩ := Option.isSome_iff_exists.mp (hps it (by simp))
    by_cases hq : it.quantity ≤ 0
    · refine ⟨it.product_id, ?_⟩
      rw [order_items_loop, hp]
      simp [hq]
    · obtain ⟨it2, hmem, hle⟩ := h
      have hmem2 : it2 ∈ rest := by
        rcases List.mem_cons.mp hmem with h1 | h1
        · subst h1
          exact absurd hle hq
        · exact h1
      obtain ⟨pid, he⟩ := ih _ _ (fun x hx => hps x (by simp [hx])) ⟨it2, hmem2, hle⟩
      refine ⟨pid, ?_⟩
      rw [order_items_loop, hp]
      simpa [hq] using he

/-! ## Helper lemmas about signup -/

/-- A signup on a fresh email creates the user and makes it findable by
email afterwards. -/
theorem signup_fresh_creates (db : DB) (u : UserCreate)
    (hfresh : get_user_by_email db u.email = none) :
    signup db u = ((create_user db u).1, .ok (user_to_schema (create_user db u).2))
    ∧ get_user_by_email (create_user db u).1 u.email = some (create_user db u).2 := by
  constructor
  · rw [signup, hfresh]
  · rw [get_user_by_email] at hfresh ⊢
    show ((db.users ++ [(create_user db u).2]).find? fun r => r.email == u.email)
        = some (create_user db u).2
    rw [List.find?_append, hfresh]
    simp [create_user]

/-! ## Helper lemmas about LIKE matching -/

theorem char_toNat_ofNat (n : Nat) (h : n < 55296) : (Char.ofNat n).toNat = n := by
  rw [Char.ofNat, dif_pos (Or.inl h)]
  rfl

theorem litChar_iff (c : Char) : litChar c = true ↔ c ≠ '%' ∧ c ≠ '_' ∧ c ≠ '\\' := by
  simp [litChar, not_or, and_assoc]

/-- Lowercasing never creates a `LIKE` metacharacter. -/
theorem litChar_toLower (c : Char) (h : litChar c = true) :
    litChar (Char.toLower c) = true := by
  rw [Char.toLower]
  split
  case isTrue h2 =>
    have h3 : (Char.ofNat (c.toNat + 32)).toNat = c.toNat + 32 :=
      char_toNat_ofNat _ (by omega)
    rw [litChar_iff]
    refine ⟨?_, ?_, ?_⟩ <;> intro heq <;>
      rw [heq] at h3 <;> revert h3 <;> simp <;> omega
  case isFalse => exact h

theorem lowerList_lit (l : List Char) (h : l.all litChar = true) :
    (lowerList l).all litChar = true := by
  rw [lowerList, List.all_map]
  rw [List.all_eq_true] at h ⊢
  exact fun c hc => litChar_toLower c (h c hc)

/-- The one-step unfolding of `likeMatch` on a non-empty pattern. -/
theorem likeMatch_cons (p : Char) (ps s : List Char) :
    likeMatch (p :: ps) s =
      (if p = '%' then (suffixesOf s).any (fun t => likeMatch ps t)
       else if p = '_' then matchOne (likeMatch ps) s
       else if p = '\\' then
         (match ps with
          | [] => false
          | c :: ps2 => matchLit c (likeMatch ps2) s)
       else matchLit p (likeMatch ps) s) := by
  rw [likeMatch.eq_def]

/-- Unfolding a leading `%` in the pattern. -/
theorem likeMatch_percent (ps s : List Char) :
    likeMatch ('%' :: ps) s = (suffixesOf s).any (fun t => likeMatch ps t) := by
  rw [likeMatch_cons, if_pos rfl]

/-- A bare `%` pattern accepts every string. -/
theorem suffixesOf_any_nil (t : List Char) :
    (suffixesOf t).any (fun u => likeMatch [] u) = true := by
  induction t with
  | nil => rfl
  | cons c rest ih => rw [suffixesOf, List.any_cons, ih, Bool.or_true]

/-- A wildcard-free pattern followed by `%` matches exactly the strings it
prefixes. -/
theorem likeMatch_lit_then_percent (pat : List Char) (h : pat.all litChar = true)
    (t : List Char) : likeMatch (pat ++ ['%']) t = pat.isPrefixOf t := by
  induction pat generalizing t with
  | nil =>
    have hpre : ([] : List Char).isPrefixOf t = true := by cases t <;> rfl
    rw [List.nil_append, hpre, likeMatch_percent]
    exact suffixesOf_any_nil t
  | cons c pat2 ih =>
    have h4 := h
    rw [List.all_cons, Bool.and_eq_true] at h4
    obtain ⟨hc, hpat2⟩ := h4
    obtain ⟨hc1, hc2, hc3⟩ := (litChar_iff c).mp hc
    rw [List.cons_append, likeMatch_cons, if_neg hc1, if_neg hc2, if_neg hc3]
    cases t with
    | nil => rfl
    | cons c2 t2 =>
      show (c == c2 && likeMatch (pat2 ++ ['%']) t2) = (c :: pat2).isPrefixOf (c2 :: t2)
      rw [ih hpat2 t2]
      rfl

/-- `%pat%` with a wildcard-free `pat` is substring matching: some suffix
of the subject starts with `pat`. -/
theorem likeMatch_wrap (pat : List Char) (h : pat.all litChar = true)
    (s : List Char) :
    likeMatch ('%' :: (pat ++ ['%'])) s
      = (suffixesOf s).any (fun t => pat.isPrefixOf t) := by
  rw [likeMatch_percent]
  simp only [likeMatch_lit_then_percent pat h]

/-- On a metacharacter-free filter, `ilike "%f%"` coincides with the
spec's case-insensitive substring containment. -/
theorem ilike_wrap_eq_containsCI (name f : String) (h : litFilter f = true) :
    ilike name ("%" ++ f ++ "%") = containsCI name f := by
  have hdata : ("%" ++ f ++ "%").data = '%' :: (f.data ++ ['%']) := by
    rw [String.data_append, String.data_append]
    rfl
  have hlow : lowerList ('%' :: (f.data ++ ['%']))
      = '%' :: (lowerList f.data ++ ['%']) := by
    rw [lowerList, List.map_cons, List.map_append]
    rfl
  rw [ilike, hdata, hlow, likeMatch_wrap _ (lowerList_lit f.data h), containsCI]

/-! ## Claims -/

/-- **C7.** The serialized user representation (`schemas.User`) carries no
password or password-hash field: the output of a stored user is entirely
independent of its `password_hash` column, so two users differing only in
their hash serialize identically. -/
theorem c7_user_output_hash_independent (u : User) (h : String) :
    user_to_schema { u with password_hash := h } = user_to_schema u := rfl

/-- **C9.** `get_filtered_products` treats an empty-string category or
subcategory filter exactly like an absent one, on every database state and
pagination window: Python truthiness guards the filters, so an empty
filter never narrows the result. -/
theorem c9_empty_filter_is_absent (db : DB) (category subcategory : Option String)
    (skip limit : Nat) :
    get_filtered_products db (some "") subcategory skip limit
        = get_filtered_products db none subcategory skip limit
      ∧ get_filtered_products db category (some "") skip limit
        = get_filtered_products db category none skip limit := by
  constructor <;> rfl

/-- **C1.** When the shipping address, the billing address and every
line-item product exist and every quantity is positive, `create_order`
persists exactly one order whose total amount is the sum over the line
items of the effective unit price (discount price if present, else price)
times the quantity, whose details snapshot that unit price at the moment
of purchase — and the persisted order is read back unchanged however the
product catalog is later replaced. -/
theorem c1_order_total_and_price_snapshot (db : DB) (order : OrderCreate) (user_id : Nat)
    (hs : (get_address db order.shipping_address_id).isSome)
    (hb : (get_address db order.billing_address_id).isSome)
    (hp : ∀ it ∈ order.items, (get_product db it.product_id).isSome)
    (hq : ∀ it ∈ order.items, 0 < it.quantity) :
    ∃ ord : Order,
      create_order db order user_id
        = ({ db with
              orders := db.orders ++ [ord]
              next_order_id := db.next_order_id + 1 },
           .ok ord)
      ∧ ord.total_amount = expected_total db order.items
      ∧ ord.details = order.items.map (expected_detail db)
      ∧ ∀ products2 : List Product,
          get_order { (create_order db order user_id).1 with products := products2 }
              ord.order_id
            = get_order (create_order db order user_id).1 ord.order_id :=
  ⟨expected_order db order user_id,
   create_order_ok db order user_id hs hb hp hq, rfl, rfl, fun _ => rfl⟩

unseal Rat.add Rat.mul in
/-- Witness for C1, the spec's §8 example 5: products at 100.0 (discount
80.0) and 50.0 (no discount) bought in quantities 2 and 3 give total
`80*2 + 50*3 = 310` and snapshot charged prices 80 and 50. -/
theorem c1_witness :
    ((get_address db1 order1.shipping_address_id).isSome = true)
    ∧ ((get_address db1 order1.billing_address_id).isSome = true)
    ∧ (∀ it ∈ order1.items, (get_product db1 it.product_id).isSome = true)
    ∧ (∀ it ∈ order1.items, 0 < it.quantity)
    ∧ (∃ ord : Order,
        create_order db1 order1 7
          = ({ db1 with
                orders := db1.orders ++ [ord]
                next_order_id := db1.next_order_id + 1 },
             .ok ord)
        ∧ ord.total_amount = expected_total db1 order1.items
        ∧ ord.details = order1.items.map (expected_detail db1)
        ∧ ∀ products2 : List Product,
            get_order { (create_order db1 order1 7).1 with products := products2 }
                ord.order_id
              = get_order (create_order db1 order1 7).1 ord.order_id)
    ∧ expected_total db1 order1.items = 310
    ∧ (order1.items.map (expected_detail db1)).map OrderDetail.price_at_purchase
        = [80, 50] :=
  ⟨by decide, by decide, by decide, by decide,
   c1_order_total_and_price_snapshot db1 order1 7 (by decide) (by decide)
     (by decide) (by decide),
   by decide, by decide⟩

/-- **C5.** `create_order` never checks address ownership: an existing
address owned by a user other than the orderer is accepted as shipping or
billing address, and when the other preconditions hold the order is
persisted referencing exactly the requested address ids. -/
theorem c5_no_address_ownership_check (db : DB) (order : OrderCreate) (user_id : Nat)
    (a : Address)
    (ha : get_address db order.shipping_address_id = some a
        ∨ get_address db order.billing_address_id = some a)
    (hown : a.user_id ≠ user_id)
    (hs : (get_address db order.shipping_address_id).isSome)
    (hb : (get_address db order.billing_address_id).isSome)
    (hp : ∀ it ∈ order.items, (get_product db it.product_id).isSome)
    (hq : ∀ it ∈ order.items, 0 < it.quantity) :
    ∃ ord : Order,
      create_order db order user_id
        = ({ db with
              orders := db.orders ++ [ord]
              next_order_id := db.next_order_id + 1 },
           .ok ord)
      ∧ ord.shipping_address_id = order.shipping_address_id
      ∧ ord.billing_address_id = order.billing_address_id
      ∧ ord.user_id = user_id :=
  ⟨expected_order db order user_id,
   create_order_ok db order user_id hs hb hp hq, rfl, rfl, rfl⟩

/-- Witness for C5: user 2 checks out with address 1, which belongs to
user 7, and the order is persisted referencing that foreign address. -/
theorem c5_witness :
    (get_address db1 order1.shipping_address_id = some address1
      ∨ get_address db1 order1.billing_address_id = some address1)
    ∧ address1.user_id ≠ 2
    ∧ ((get_address db1 order1.shipping_address_id).isSome = true)
    ∧ (∃ ord : Order,
        create_order db1 order1 2
          = ({ db1 with
                orders := db1.orders ++ [ord]
                next_order_id := db1.next_order_id + 1 },
             .ok ord)
        ∧ ord.shipping_address_id = order1.shipping_address_id
        ∧ ord.billing_address_id = order1.billing_address_id
        ∧ ord.user_id = 2) :=
  ⟨by decide, by decide, by decide,
   c5_no_address_ownership_check db1 order1 2 address1 (Or.inl (by decide))
     (by decide) (by decide) (by decide) (by decide) (by decide)⟩

/-- **C10.** `create_order` accepts an empty line-item list: with existing
shipping and billing addresses, a zero-item checkout succeeds and persists
an order with total amount 0, status `pending` and no detail rows. -/
theorem c10_empty_cart_accepted (db : DB) (order : OrderCreate) (user_id : Nat)
    (hs : (get_address db order.shipping_address_id).isSome)
    (hb : (get_address db order.billing_address_id).isSome)
    (hempty : order.items = []) :
    ∃ ord : Order,
      create_order db order user_id
        = ({ db with
              orders := db.orders ++ [ord]
              next_order_id := db.next_order_id + 1 },
           .ok ord)
      ∧ ord.total_amount = 0
      ∧ ord.status = OrderStatus.pending
      ∧ ord.details = [] := by
  refine ⟨expected_order db order user_id,
    create_order_ok db order user_id hs hb ?_ ?_, ?_, rfl, ?_⟩
  · simp [hempty]
  · simp [hempty]
  · simp [expected_order, expected_total, hempty]
  · simp [expected_order, hempty]

/-- Witness for C10: an empty cart against the catalog with address 1. -/
theorem c10_witness :
    ((get_address db1 order5.shipping_address_id).isSome = true)
    ∧ ((get_address db1 order5.billing_address_id).isSome = true)
    ∧ order5.items = []
    ∧ (∃ ord : Order,
        create_order db1 order5 7
          = ({ db1 with
                orders := db1.orders ++ [ord]
                next_order_id := db1.next_order_id + 1 },
             .ok ord)
        ∧ ord.total_amount = 0
        ∧ ord.status = OrderStatus.pending
        ∧ ord.details = []) :=
  ⟨by decide, by decide, by decide,
   c10_empty_cart_accepted db1 order5 7 (by decide) (by decide) (by decide)⟩

/-- **C2 (amended).** When the shipping address, the billing address or
some line item's product does not resolve, `create_order` returns a
structured error value — not an exception — and leaves the database
unchanged (no Order, hence no OrderDetail row).  The error is
NotFound-kind whenever the failing reference is an address or every
line-item quantity is positive; a non-positive-quantity line item
preceding the first unresolved product yields the InvalidInput-kind
error instead. -/
theorem c2_missing_reference_rolls_back (db : DB) (order : OrderCreate) (user_id : Nat)
    (hfail : get_address db order.shipping_address_id = none
           ∨ get_address db order.billing_address_id = none
           ∨ ∃ it ∈ order.items, get_product db it.product_id = none) :
    (create_order db order user_id).1 = db
    ∧ ∃ e : CrudError,
        (create_order db order user_id).2 = .error e
        ∧ ((get_address db order.shipping_address_id = none
            ∨ get_address db order.billing_address_id = none
            ∨ ∀ it ∈ order.items, 0 < it.quantity)
          → e.kind = ErrorKind.notFound) := by
  cases hsa : get_address db order.shipping_address_id with
  | none =>
    have hco : create_order db order user_id
        = (db, .error (.shippingAddressNotFound order.shipping_address_id)) := by
      rw [create_order, hsa]
    exact ⟨by rw [hco],
      ⟨.shippingAddressNotFound order.shipping_address_id,
       by rw [hco], fun _ => rfl⟩⟩
  | some sa =>
    cases hsb : get_address db order.billing_address_id with
    | none =>
      have hco : create_order db order user_id
          = (db, .error (.billingAddressNotFound order.billing_address_id)) := by
        rw [create_order, hsa, hsb]
      exact ⟨by rw [hco],
        ⟨.billingAddressNotFound order.billing_address_id,
         by rw [hco], fun _ => rfl⟩⟩
    | some ba =>
      have hmiss : ∃ it ∈ order.items, get_product db it.product_id = none := by
        rcases hfail with h | h | h
        · rw [hsa] at h
          cases h
        · rw [hsb] at h
          cases h
        · exact h
      obtain ⟨e, he⟩ :=
        order_items_loop_error_of_missing_product db order.items [] 0 hmiss
      have hco : create_order db order user_id = (db, .error e) := by
        rw [create_order, hsa, hsb, he]
      refine ⟨by rw [hco], ⟨e, by rw [hco], ?_⟩⟩
      intro hor
      have hq : ∀ it ∈ order.items, 0 < it.quantity := by
        rcases hor with h | h | h
        · exact Option.noConfusion h
        · exact Option.noConfusion h
        · exact h
      obtain ⟨pid, he2⟩ :=
        order_items_loop_notFound_of_all_pos db order.items [] 0 hq hmiss
      rw [he] at he2
      cases he2
      rfl

/-- Counterexample to C2 as stated: a request whose second line item names
a nonexistent product but whose first has quantity 0 on an existing
product is rejected with the InvalidInput-kind quantity error, not a
NotFound-kind one. -/
theorem c2_counterexample :
    (∃ it ∈ order2.items, get_product db1 it.product_id = none)
    ∧ (create_order db1 order2 7).2 = .error (.invalidQuantity 2)
    ∧ (CrudError.invalidQuantity 2).kind ≠ ErrorKind.notFound := by
  refine ⟨by decide, by decide, by decide⟩

/-- Witness for C2: checkout against a database without the referenced
shipping address fails NotFound-kind and changes nothing. -/
theorem c2_witness :
    (get_address db2 order3.shipping_address_id = none
      ∨ get_address db2 order3.billing_address_id = none
      ∨ ∃ it ∈ order3.items, get_product db2 it.product_id = none)
    ∧ ((create_order db2 order3 7).1 = db2
      ∧ ∃ e : CrudError,
          (create_order db2 order3 7).2 = .error e
          ∧ ((get_address db2 order3.shipping_address_id = none
              ∨ get_address db2 order3.billing_address_id = none
              ∨ ∀ it ∈ order3.items, 0 < it.quantity)
            → e.kind = ErrorKind.notFound)) :=
  ⟨Or.inl (by decide),
   c2_missing_reference_rolls_back db2 order3 7 (Or.inl (by decide))⟩

/-- **C3 (amended).** When the shipping and billing addresses exist and
every line-item product resolves, a request containing a line item with
quantity ≤ 0 fails with the InvalidInput-kind error, creates no Order or
OrderDetail row, and the checkout route surfaces it as HTTP 404 — the
same code every `create_order` error is mapped to, NotFound included.
(If an address or an earlier item's product fails to resolve first, the
NotFound-kind error wins instead.) -/
theorem c3_nonpositive_quantity_rejected (db : DB) (order : OrderCreate) (user_id : Nat)
    (hs : (get_address db order.shipping_address_id).isSome)
    (hb : (get_address db order.billing_address_id).isSome)
    (hp : ∀ it ∈ order.items, (get_product db it.product_id).isSome)
    (hbad : ∃ it ∈ order.items, it.quantity ≤ 0) :
    (create_order db order user_id).1 = db
    ∧ ∃ pid : Nat,
        (create_order db order user_id).2 = .error (.invalidQuantity pid)
        ∧ (CrudError.invalidQuantity pid).kind = ErrorKind.invalidInput
        ∧ checkout_status (create_order db order user_id).2 = 404
        ∧ ∀ e : CrudError, checkout_status (.error e) = 404 := by
  obtain ⟨sa, hsa⟩ := Option.isSome_iff_exists.mp hs
  obtain ⟨ba, hba⟩ := Option.isSome_iff_exists.mp hb
  obtain ⟨pid, he⟩ :=
    order_items_loop_invalid_of_all_found db order.items [] 0 hp hbad
  have hco : create_order db order user_id
      = (db, .error (.invalidQuantity pid)) := by
    rw [create_order, hsa, hba, he]
  exact ⟨by rw [hco], ⟨pid, by rw [hco], rfl, by rw [hco]; rfl, fun _ => rfl⟩⟩

/-- Counterexample to C3 as stated: with the quantity-0 line item present
(product existing) but the shipping address missing, the operation fails
with the NotFound-kind address error, not an InvalidInput-kind one. -/
theorem c3_counterexample :
    (∃ it ∈ order4.items,
        it.quantity ≤ 0 ∧ (get_product db2 it.product_id).isSome = true)
    ∧ (create_order db2 order4 7).2 = .error (.shippingAddressNotFound 1)
    ∧ (CrudError.shippingAddressNotFound 1).kind ≠ ErrorKind.invalidInput := by
  refine ⟨by decide, by decide, by decide⟩

/-- Witness for C3: the quantity-0 request against the full catalog is
rejected InvalidInput-kind with no rows created, surfaced as 404. -/
theorem c3_witness :
    ((get_address db1 order4.shipping_address_id).isSome = true)
    ∧ ((get_address db1 order4.billing_address_id).isSome = true)
    ∧ (∀ it ∈ order4.items, (get_product db1 it.product_id).isSome = true)
    ∧ (∃ it ∈ order4.items, it.quantity ≤ 0)
    ∧ ((create_order db1 order4 7).1 = db1
      ∧ ∃ pid : Nat,
          (create_order db1 order4 7).2 = .error (.invalidQuantity pid)
          ∧ (CrudError.invalidQuantity pid).kind = ErrorKind.invalidInput
          ∧ checkout_status (create_order db1 order4 7).2 = 404
          ∧ ∀ e : CrudError, checkout_status (.error e) = 404) :=
  ⟨by decide, by decide, by decide, by decide,
   c3_nonpositive_quantity_rejected db1 order4 7 (by decide) (by decide)
     (by decide) (by decide)⟩

/-- **C6.** Signing up with an email no user holds succeeds with 201 and
persists exactly one new row; a second signup with the same email is
rejected with the DuplicateEntity error mapped to HTTP 400 and leaves the
database — in particular the user table — unchanged. -/
theorem c6_duplicate_email_rejected (db : DB) (u1 u2 : UserCreate)
    (hfresh : get_user_by_email db u1.email = none)
    (hsame : u2.email = u1.email) :
    signup_status (signup db u1).2 = 201
    ∧ (∃ nu : User,
        (signup db u1).1.users = db.users ++ [nu] ∧ nu.email = u1.email)
    ∧ signup (signup db u1).1 u2
        = ((signup db u1).1, .error (400, "Email already registered"))
    ∧ signup_status (signup (signup db u1).1 u2).2 = 400 := by
  obtain ⟨h1, h2⟩ := signup_fresh_creates db u1 hfresh
  have h3 : signup (signup db u1).1 u2
      = ((signup db u1).1, .error (400, "Email already registered")) := by
    rw [signup, hsame, h1, h2]
  refine ⟨by rw [h1]; rfl, ⟨(create_user db u1).2, ?_, rfl⟩, h3, ?_⟩
  · rw [h1]
    rfl
  · rw [h3]
    rfl

/-- Witness for C6: two signups for `a@example.com` against the empty
database — 201 then 400, second call a no-op. -/
theorem c6_witness :
    get_user_by_email db0 userInputA.email = none
    ∧ userInputB.email = userInputA.email
    ∧ (signup_status (signup db0 userInputA).2 = 201
      ∧ (∃ nu : User,
          (signup db0 userInputA).1.users = db0.users ++ [nu]
          ∧ nu.email = userInputA.email)
      ∧ signup (signup db0 userInputA).1 userInputB
          = ((signup db0 userInputA).1, .error (400, "Email already registered"))
      ∧ signup_status (signup (signup db0 userInputA).1 userInputB).2 = 400) :=
  ⟨by decide, by decide,
   c6_duplicate_email_rejected db0 userInputA userInputB (by decide) (by decide)⟩

/-- **C4.** Only the first 72 characters of a password affect the stored
hash and later verification: signup hashes the 72-character slice, so any
password agreeing with the registered one on its first 72 characters
produces the identical hash input and logs in successfully. -/
theorem c4_password_truncation (db : DB) (u : UserCreate) (q : String)
    (hfresh : get_user_by_email db u.email = none)
    (hagree : sliceTo q 72 = sliceTo u.password 72) :
    ∃ nu : User,
      (signup db u).1.users = db.users ++ [nu]
      ∧ nu.password_hash = hash_password (sliceTo u.password 72)
      ∧ nu.password_hash = hash_password (sliceTo q 72)
      ∧ login_check (signup db u).1 u.email q = true := by
  obtain ⟨h1, h2⟩ := signup_fresh_creates db u hfresh
  refine ⟨(create_user db u).2, ?_, by rfl, ?_, ?_⟩
  · rw [h1]
    rfl
  · rw [hagree]
    rfl
  have h4 : login_check (create_user db u).1 u.email q
      = verify_password (sliceTo q 72) (create_user db u).2.password_hash := by
    rw [login_check, h2]
  rw [h1]
  show login_check (create_user db u).1 u.email q = true
  rw [h4]
  show (hash_password (sliceTo q 72) == hash_password (sliceTo u.password 72)) = true
  rw [hagree]
  exact beq_self_eq_true _

/-- Witness for C4: an 80-character password is registered; a password
agreeing on the first 72 characters but differing in the last 8 logs in
successfully, and the stored hash is the hash of the common 72-character
prefix. -/
theorem c4_witness :
    get_user_by_email db0 userInputLong.email = none
    ∧ sliceTo longPassword2 72 = sliceTo longPassword 72
    ∧ longPassword.data.length = 80
    ∧ longPassword ≠ longPassword2
    ∧ (∃ nu : User,
        (signup db0 userInputLong).1.users = db0.users ++ [nu]
        ∧ nu.password_hash = hash_password (sliceTo userInputLong.password 72)
        ∧ nu.password_hash = hash_password (sliceTo longPassword2 72)
        ∧ login_check (signup db0 userInputLong).1 userInputLong.email longPassword2
            = true) :=
  ⟨by decide, by decide, by decide, by decide,
   c4_password_truncation db0 userInputLong longPassword2 (by decide) (by decide)⟩

/-- **C8 (amended).** For provided filter strings that are non-empty and
free of the SQL LIKE metacharacters `%`, `_`, `\\`, `get_filtered_products`
returns exactly the products whose category (resp. subcategory) name
contains the filter as a case-insensitive substring, within the skip/limit
window; with no filters it returns the unfiltered paginated listing.
(An empty filter acts as absent, and metacharacters are interpreted as
LIKE wildcards rather than literally.) -/
theorem c8_filtered_products (db : DB) (category subcategory : Option String)
    (skip limit : Nat)
    (hcat : ∀ c, category = some c → c ≠ "" ∧ litFilter c = true)
    (hsub : ∀ c, subcategory = some c → c ≠ "" ∧ litFilter c = true) :
    get_filtered_products db category subcategory skip limit
      = ((db.products.filter (specMatches category subcategory)).drop skip).take limit := by
  have main : (if pyTruthy subcategory then
        (if pyTruthy category then
          db.products.filter
            (fun p => ilike p.category_name ("%" ++ category.getD "" ++ "%"))
         else db.products).filter
          (fun p =>
            match p.subcategory_name with
            | some nm => ilike nm ("%" ++ subcategory.getD "" ++ "%")
            | none => false)
       else
        (if pyTruthy category then
          db.products.filter
            (fun p => ilike p.category_name ("%" ++ category.getD "" ++ "%"))
         else db.products))
      = db.products.filter (specMatches category subcategory) := by
    cases category with
    | none =>
      cases subcategory with
      | none =>
        show db.products = db.products.filter (specMatches none none)
        rw [show specMatches none none = fun _ => true from rfl, List.filter_true]
      | some c2 =>
        obtain ⟨hne2, hlit2⟩ := hsub c2 rfl
        have ht2 : pyTruthy (some c2) = true := by simp [pyTruthy, hne2]
        rw [ht2]
        show db.products.filter _ = db.products.filter (specMatches none (some c2))
        refine List.filter_congr (fun p _ => ?_)
        cases hsn : p.subcategory_name with
        | none => simp [specMatches, hsn]
        | some nm => simp [specMatches, hsn, ilike_wrap_eq_containsCI nm c2 hlit2]
    | some c =>
      obtain ⟨hne, hlit⟩ := hcat c rfl
      have ht1 : pyTruthy (some c) = true := by simp [pyTruthy, hne]
      cases subcategory with
      | none =>
        rw [ht1]
        show db.products.filter _ = db.products.filter (specMatches (some c) none)
        refine List.filter_congr (fun p _ => ?_)
        simp [specMatches, ilike_wrap_eq_containsCI p.category_name c hlit]
      | some c2 =>
        obtain ⟨hne2, hlit2⟩ := hsub c2 rfl
        have ht2 : pyTruthy (some c2) = true := by simp [pyTruthy, hne2]
        rw [ht1, ht2]
        show (db.products.filter _).filter _
            = db.products.filter (specMatches (some c) (some c2))
        rw [List.filter_filter]
        refine List.filter_congr (fun p _ => ?_)
        show ((match p.subcategory_name with
               | some nm => ilike nm ("%" ++ c2 ++ "%")
               | none => false)
             && ilike p.category_name ("%" ++ c ++ "%"))
            = specMatches (some c) (some c2) p
        rw [ilike_wrap_eq_containsCI p.category_name c hlit]
        cases hsn : p.subcategory_name with
        | none => simp [specMatches, hsn]
        | some nm =>
          simp only [specMatches, hsn, ilike_wrap_eq_containsCI nm c2 hlit2]
          exact Bool.and_comm _ _
  simp only [get_filtered_products]
  rw [main]

/-- Counterexample to C8 as stated: the filter string `"_"` is a LIKE
wildcard, so the product with category name `"X"` is returned although
`"X"` does not contain `"_"` as a substring. -/
theorem c8_counterexample :
    get_filtered_products db3 (some "_") none 0 100 = [productX]
    ∧ containsCI productX.category_name "_" = false
    ∧ get_filtered_products db3 (some "_") none 0 100
        ≠ ((db3.products.filter (specMatches (some "_") none)).drop 0).take 100 := by
  refine ⟨by decide, by decide, by decide⟩

/-- Witness for C8, the spec's §8 example 4: filtering by `"elec"` keeps
the product with category `"Electronics"` (case-insensitive substring)
and drops the one with category `"Furniture"`. -/
theorem c8_witness :
    (∀ c, (some "elec" : Option String) = some c → c ≠ "" ∧ litFilter c = true)
    ∧ (∀ c, (none : Option String) = some c → c ≠ "" ∧ litFilter c = true)
    ∧ get_filtered_products db1 (some "elec") none 0 100
        = ((db1.products.filter (specMatches (some "elec") none)).drop 0).take 100
    ∧ get_filtered_products db1 (some "elec") none 0 100 = [productA] :=
  ⟨fun c hc => by cases hc; exact ⟨by decide, by decide⟩,
   fun c hc => Option.noConfusion hc,
   c8_filtered_products db1 (some "elec") none 0 100
     (fun c hc => by cases hc; exact ⟨by decide, by decide⟩)
     (fun c hc => Option.noConfusion hc),
   by decide⟩

end App
